import Mathlib

/-!
Verification of the document-conversion gateway (pandoc service `app.py` and
markitdown extraction service `app.py`) against its natural-language
specification.  The Python source is shallowly embedded: pure fragments become
Lean functions, network calls and the external engine become oracles passed as
function arguments, and Python exceptions become explicit `Except` values.
-/

namespace Gateway

/-! ## Python string primitives used by the source -/

/-- Characters stripped by Python `str.strip()` (ASCII whitespace). -/
def pySpace (c : Char) : Bool :=
  c = ' ' || c = '\t' || c = '\n' || c = '\x0d' || c = '\x0b' || c = '\x0c'

/-- Python `str.strip()`. -/
def pyStrip (s : String) : String :=
  ⟨((s.data.dropWhile pySpace).reverse.dropWhile pySpace).reverse⟩

/-- Python `str.strip('"')`. -/
def pyStripQuote (s : String) : String :=
  ⟨((s.data.dropWhile (· = '"')).reverse.dropWhile (· = '"')).reverse⟩

/-- Python substring test `needle in hay`, on character lists. -/
def substrOfL : List Char → List Char → Bool
  | n, [] => n.isEmpty
  | n, c :: t => n.isPrefixOf (c :: t) || substrOfL n t

/-- Python substring test `needle in hay`. -/
def substrOf (needle hay : String) : Bool :=
  substrOfL needle.data hay.data

/-- Core loop of Python `str.replace` for a non-empty pattern: scan left to
right, replacing each non-overlapping occurrence.  The fuel argument is the
length of the scanned list, which bounds the number of steps because every
step consumes at least one character. -/
def pyReplaceFuel (old new : List Char) : Nat → List Char → List Char
  | 0, _ => []
  | _ + 1, [] => []
  | f + 1, c :: rest =>
    if old.isPrefixOf (c :: rest) then
      new ++ pyReplaceFuel old new f ((c :: rest).drop old.length)
    else
      c :: pyReplaceFuel old new f rest

/-- Python `s.replace(old, new)` (replaces every non-overlapping occurrence,
left to right; an empty pattern inserts `new` at every position boundary). -/
def pyReplace (s old new : String) : String :=
  if old.isEmpty then
    ⟨new.data ++ s.data.flatMap (fun c => c :: new.data)⟩
  else
    ⟨pyReplaceFuel old.data new.data s.data.length s.data⟩

/-- Python truthiness of an `Optional[str]` value (`None` and `""` are falsy). -/
def pyTruthy : Option String → Bool
  | none => false
  | some s => !s.isEmpty

/-- Python `s.startswith(p)`. -/
def pyStartsWith (s p : String) : Bool :=
  p.data.isPrefixOf s.data

/-- Python `s.split('\n')` on the character list. -/
def splitNl : List Char → List String
  | [] => [""]
  | c :: rest =>
    if c = '\n' then "" :: splitNl rest
    else
      match splitNl rest with
      | [] => [⟨[c]⟩]
      | s :: ss => (⟨c :: s.data⟩) :: ss

/-- Python `s.split('\n')`. -/
def pySplitLines (s : String) : List String :=
  splitNl s.data

/-! ## MD5 (as used by `hashlib.md5(url.encode()).hexdigest()`) -/

/-- Reduction modulo 2^32. -/
def u32 (n : Nat) : Nat := n % 4294967296

/-- Left rotation of a 32-bit word. -/
def rotl32 (x s : Nat) : Nat :=
  u32 ((x <<< s) ||| (x >>> (32 - s)))

/-- Bitwise complement of a 32-bit word. -/
def not32 (x : Nat) : Nat := x ^^^ 4294967295

/-- MD5 per-round shift amounts. -/
def md5S : List Nat :=
  [7, 12, 17, 22, 7, 12, 17, 22, 7, 12, 17, 22, 7, 12, 17, 22,
   5, 9, 14, 20, 5, 9, 14, 20, 5, 9, 14, 20, 5, 9, 14, 20,
   4, 11, 16, 23, 4, 11, 16, 23, 4, 11, 16, 23, 4, 11, 16, 23,
   6, 10, 15, 21, 6, 10, 15, 21, 6, 10, 15, 21, 6, 10, 15, 21]

/-- MD5 sine-derived constants. -/
def md5K : List Nat :=
  [3614090360, 3905402710, 606105819, 3250441966, 4118548399, 1200080426,
   2821735955, 4249261313, 1770035416, 2336552879, 4294925233, 2304563134,
   1804603682, 4254626195, 2792965006, 1236535329, 4129170786, 3225465664,
   643717713, 3921069994, 3593408605, 38016083, 3634488961, 3889429448,
   568446438, 3275163606, 4107603335, 1163531501, 2850285829, 4243563512,
   1735328473, 2368359562, 4294588738, 2272392833, 1839030562, 4259657740,
   2763975236, 1272893353, 4139469664, 3200236656, 681279174, 3936430074,
   3572445317, 76029189, 3654602809, 3873151461, 530742520, 3299628645,
   4096336452, 1126891415, 2878612391, 4237533241, 1700485571, 2399980690,
   4293915773, 2240044497, 1873313359, 4264355552, 2734768916, 1309151649,
   4149444226, 3174756917, 718787259, 3951481745]

/-- Little-endian byte decomposition of a number into `k` bytes. -/
def leBytes : Nat → Nat → List Nat
  | 0, _ => []
  | k + 1, n => n % 256 :: leBytes k (n / 256)

/-- Little-endian 32-bit word from the first four bytes of a list. -/
def leWord (b : List Nat) : Nat :=
  b.getD 0 0 + 256 * (b.getD 1 0 + 256 * (b.getD 2 0 + 256 * b.getD 3 0))

/-- MD5 message padding: append `0x80`, zero bytes to 56 mod 64, then the
64-bit little-endian bit length. -/
def md5pad (msg : List Nat) : List Nat :=
  let l := msg.length
  let z := (56 + 64 - ((l + 1) % 64)) % 64
  msg ++ 128 :: List.replicate z 0 ++ leBytes 8 ((8 * l) % (2 ^ 64))

/-- Split a byte list into 64-byte blocks (fuel-bounded by the list length). -/
def chunks64 : Nat → List Nat → List (List Nat)
  | 0, _ => []
  | _ + 1, [] => []
  | f + 1, l => l.take 64 :: chunks64 f (l.drop 64)

/-- One MD5 compression step (round index `i`). -/
def md5step (block : List Nat) (st : Nat × Nat × Nat × Nat) (i : Nat) :
    Nat × Nat × Nat × Nat :=
  let (a, b, c, d) := st
  let fg : Nat × Nat :=
    if i < 16 then ((b &&& c) ||| (not32 b &&& d), i)
    else if i < 32 then ((d &&& b) ||| (not32 d &&& c), (5 * i + 1) % 16)
    else if i < 48 then (b ^^^ c ^^^ d, (3 * i + 5) % 16)
    else (c ^^^ (b ||| not32 d), (7 * i) % 16)
  let m := leWord ((block.drop (4 * fg.2)).take 4)
  let f2 := u32 (fg.1 + a + md5K.getD i 0 + m)
  (d, u32 (b + rotl32 f2 (md5S.getD i 0)), b, c)

/-- MD5 compression of one 64-byte block. -/
def md5block (st : Nat × Nat × Nat × Nat) (block : List Nat) :
    Nat × Nat × Nat × Nat :=
  let (a0, b0, c0, d0) := st
  let r := (List.range 64).foldl (md5step block) st
  (u32 (a0 + r.1), u32 (b0 + r.2.1), u32 (c0 + r.2.2.1), u32 (d0 + r.2.2.2))

/-- MD5 digest (16 bytes) of a byte list. -/
def md5bytes (msg : List Nat) : List Nat :=
  let p := md5pad msg
  let st := (chunks64 p.length p).foldl md5block
    (1732584193, 4023233417, 2562383102, 271733878)
  leBytes 4 st.1 ++ leBytes 4 st.2.1 ++ leBytes 4 st.2.2.1 ++ leBytes 4 st.2.2.2

/-- Lower-case hex digit. -/
def hexDigit (n : Nat) : Char :=
  if n < 10 then Char.ofNat (48 + n) else Char.ofNat (87 + n)

/-- Two hex characters for one byte. -/
def byteHex (b : Nat) : List Char :=
  [hexDigit (b / 16), hexDigit (b % 16)]

/-- `hashlib.md5(bytes).hexdigest()`. -/
def md5hex (msg : List Nat) : String :=
  ⟨(md5bytes msg).flatMap byteHex⟩

/-- UTF-8 encoding of one character (Python `str.encode()`). -/
def utf8Char (c : Char) : List Nat :=
  let n := c.toNat
  if n < 128 then [n]
  else if n < 2048 then [192 + n / 64, 128 + n % 64]
  else if n < 65536 then [224 + n / 4096, 128 + n / 64 % 64, 128 + n % 64]
  else [240 + n / 262144, 128 + n / 4096 % 64, 128 + n / 64 % 64, 128 + n % 64]

/-- UTF-8 encoding of a string (Python `str.encode()`). -/
def utf8 (s : String) : List Nat := s.data.flatMap utf8Char

/-! ## `pathlib.Path(url).suffix` and the external-URL filename -/

/-- Final path component, as `pathlib.Path(p).name`: drop trailing slashes,
then take the characters after the last slash. -/
def pathName (p : String) : String :=
  let t := (p.data.reverse.dropWhile (· = '/')).reverse
  ⟨(t.reverse.takeWhile (· ≠ '/')).reverse⟩

/-- Python `pathlib.Path(p).suffix`: the last-dot extension of the final
component, empty for names with no dot, a leading dot only, or a trailing
dot. -/
def pathSuffix (p : String) : String :=
  let cs := (pathName p).data
  if cs.contains '.' then
    let after := (cs.reverse.takeWhile (fun c => c ≠ '.')).reverse
    let i := cs.length - after.length - 1
    if 0 < i ∧ i < cs.length - 1 then ⟨'.' :: after⟩ else ""
  else ""

/-- First eight characters of the MD5 hex digest of the URL, from
`hashlib.md5(url.encode()).hexdigest()[:8]` in `download_url`. -/
def urlHash8 (url : String) : String :=
  ⟨(md5hex (utf8 url)).data.take 8⟩

/-- Extension chosen in `download_url`: `Path(url).suffix or '.jpg'`. -/
def urlExt (url : String) : String :=
  if pathSuffix url = "" then ".jpg" else pathSuffix url

/-- Local filename derived for an external URL in `download_url`:
`f"url_{url_hash}{ext}"`. -/
def urlFilename (url : String) : String :=
  "url_" ++ urlHash8 url ++ urlExt url

/-! ## Frontmatter classification (`convert_text`, lines 200-215) -/

/-- Index of the closing frontmatter delimiter, scanning
`range(1, min(100, len(lines)))` for a line whose strip equals `---`. -/
def findCloseIdx (lines : List String) : Option Nat :=
  (List.range' 1 (min 100 lines.length - 1)).find?
    (fun i => pyStrip (lines.getD i "") == "---")

/-- Field names contributed by the lines `lines[1:i]` of the frontmatter
block: lines containing `:` whose strip does not start with `#` contribute
the stripped text before the first `:`. -/
def frontmatterFields (lines : List String) (i : Nat) : List String :=
  ((lines.drop 1).take (i - 1)).filterMap (fun line =>
    if line.data.contains ':' && !(pyStartsWith (pyStrip line) "#") then
      some (pyStrip ⟨line.data.takeWhile (· ≠ ':')⟩)
    else none)

/-- Frontmatter detection of `convert_text`: returns
`(has_frontmatter, frontmatter_fields)`.  The document has frontmatter only
when its stripped text starts with `---`, it has more than two lines, and a
closing `---` line occurs among lines 1..99. -/
def computeFrontmatter (content : String) : Bool × List String :=
  if pyStartsWith (pyStrip content) "---" then
    let lines := pySplitLines content
    if lines.length > 2 then
      match findCloseIdx lines with
      | some i => (true, frontmatterFields lines i)
      | none => (false, [])
    else (false, [])
  else (false, [])

/-! ## Conversion command assembly (`convert_text`, lines 221-278) -/

/-- Default link-color variables added when `colors` is absent or fails to
parse. -/
def blueDefaults : List String :=
  ["--variable", "linkcolor:blue", "--variable", "urlcolor:blue",
   "--variable", "toccolor:blue"]

/-- Color options: a parsed `colors` dict contributes one `--variable k:v`
pair per entry; a missing or unparsable value contributes the blue
defaults.  The `Except` input models the outcome of `json.loads` plus
`.items()` on the request's `colors` field. -/
def colorOpts : Option (Except Unit (List (String × String))) → List String
  | none => blueDefaults
  | some (.error _) => blueDefaults
  | some (.ok kvs) => kvs.flatMap (fun p => ["--variable", p.1 ++ ":" ++ p.2])

/-- Font options: as `colorOpts` but a parse failure contributes nothing. -/
def fontOpts : Option (Except Unit (List (String × String))) → List String
  | none => []
  | some (.error _) => []
  | some (.ok kvs) => kvs.flatMap (fun p => ["--variable", p.1 ++ ":" ++ p.2])

/-- Template option: added only when the `template` field is truthy and the
template file exists on disk (`fsExists` models `Path.exists`). -/
def templateOpts (template : Option String) (fsExists : String → Bool) :
    List String :=
  if pyTruthy template then
    let p := "/app/templates/" ++ template.getD "" ++ ".latex"
    if fsExists p then ["--template", p] else []
  else []

/-- Metadata options of the first invocation (lines 270-278): `title` and
`author` are injected only when truthy and absent from the frontmatter field
set; the current date is injected exactly when `date` is absent. -/
def metadataOpts (title author : Option String) (fields : List String)
    (nowDate : String) : List String :=
  (if pyTruthy title && !(fields.contains "title") then
    ["-M", "title=" ++ title.getD ""] else [])
  ++ (if pyTruthy author && !(fields.contains "author") then
    ["-M", "author=" ++ author.getD ""] else [])
  ++ (if !(fields.contains "date") then ["-M", "date=" ++ nowDate] else [])

/-- PDF-specific options (lines 223-268): engine, color-link variable,
listings, the generated image-sizing header, then colors, fonts and the
optional template. -/
def pdfOpts (tmpdir : String)
    (colors fonts : Option (Except Unit (List (String × String))))
    (template : Option String) (fsExists : String → Bool) : List String :=
  ["--pdf-engine", "xelatex", "--variable", "colorlinks:true", "--listings",
   "--include-in-header", tmpdir ++ "/header.tex"]
  ++ colorOpts colors ++ fontOpts fonts ++ templateOpts template fsExists

/-- The full first (non-fallback) invocation built by `convert_text`. -/
def buildCmd (tmpdir outputFormat : String)
    (colors fonts : Option (Except Unit (List (String × String))))
    (template : Option String) (fsExists : String → Bool)
    (title author : Option String) (fields : List String) (nowDate : String) :
    List String :=
  ["pandoc", tmpdir ++ "/input.md", "-o", tmpdir ++ "/output." ++ outputFormat]
  ++ (if outputFormat == "pdf" then
        pdfOpts tmpdir colors fonts template fsExists
      else [])
  ++ metadataOpts title author fields nowDate

/-- The fallback invocation built at lines 296-309: fixed minimal PDF
options, then `title`/`author` whenever truthy and the date
unconditionally — the frontmatter field set is not consulted. -/
def cmdFallback (inputFile outputFile : String) (title author : Option String)
    (nowDate : String) : List String :=
  ["pandoc", inputFile, "-o", outputFile, "--pdf-engine", "xelatex",
   "--variable", "colorlinks:true", "--variable", "linkcolor:blue",
   "--variable", "urlcolor:blue", "--variable", "toccolor:blue", "--listings"]
  ++ (if pyTruthy title then ["-M", "title=" ++ title.getD ""] else [])
  ++ (if pyTruthy author then ["-M", "author=" ++ author.getD ""] else [])
  ++ ["-M", "date=" ++ nowDate]

/-! ## Engine execution and the fallback state machine (lines 280-351) -/

/-- Outcome of one `subprocess.run` of the engine: either the 120-second
timeout fired (`TimeoutExpired`) or the process ran to completion with an
exit code, stdout and stderr. -/
inductive EngineOut where
  | timeout
  | ran (returncode : Int) (stdout stderr : String)

/-- Execution of the conversion with the fallback retry.  `engine` is the
external-engine oracle.  The result pairs the list of issued invocations
with `none` on success or the HTTP status raised on failure (`504` for a
timeout, `500` for an engine failure; the enclosing generic handler
re-raises with the same 500 status). -/
def runConversion (cmd : List String) (outputFormat : String)
    (template : Option String) (title author : Option String)
    (nowDate inputFile outputFile : String)
    (engine : List String → EngineOut) : List (List String) × Option Nat :=
  match engine cmd with
  | .timeout => ([cmd], some 504)
  | .ran rc _ stderr =>
    if rc != 0 then
      if outputFormat == "pdf" && pyTruthy template
          && substrOf "! LaTeX Error" stderr then
        let cf := cmdFallback inputFile outputFile title author nowDate
        match engine cf with
        | .timeout => ([cmd, cf], some 504)
        | .ran rc2 _ _ =>
          if rc2 != 0 then ([cmd, cf], some 500) else ([cmd, cf], none)
      else ([cmd], some 500)
    else ([cmd], none)

/-! ## The asset bundle (`convert_text`, lines 159-198) -/

/-- JSON values with integer numerals, modelling what `json.loads` can
return for the `assets` field. -/
inductive Json where
  | null
  | bool (b : Bool)
  | num (n : Int)
  | str (s : String)
  | arr (xs : List Json)
  | obj (kvs : List (String × Json))

mutual

/-- Python `repr` of a JSON-derived value (quotes inside strings are not
re-escaped; such values never occur as asset identifiers in this
development). -/
def pyReprJson : Json → String
  | .null => "None"
  | .bool b => if b then "True" else "False"
  | .num n => toString n
  | .str s => "'" ++ s ++ "'"
  | .arr xs => "[" ++ pyReprSeq xs ++ "]"
  | .obj kvs => "\x7b" ++ pyReprEntries kvs ++ "\x7d"

/-- Comma-separated `repr`s of list elements. -/
def pyReprSeq : List Json → String
  | [] => ""
  | [x] => pyReprJson x
  | x :: y :: rest => pyReprJson x ++ ", " ++ pyReprSeq (y :: rest)

/-- Comma-separated `repr`s of dict entries. -/
def pyReprEntries : List (String × Json) → String
  | [] => ""
  | [p] => "'" ++ p.1 ++ "': " ++ pyReprJson p.2
  | p :: q :: rest =>
    "'" ++ p.1 ++ "': " ++ pyReprJson p.2 ++ ", " ++ pyReprEntries (q :: rest)

end

/-- Python `str()` of a JSON-derived value, as interpolated by the f-string
`f"asset://{asset_id}"`. -/
def pyStrJson (j : Json) : String :=
  match j with
  | .null => "None"
  | .bool b => if b then "True" else "False"
  | .num n => toString n
  | .str s => s
  | .arr xs => pyReprJson (.arr xs)
  | .obj kvs => pyReprJson (.obj kvs)

/-- Python `==` on the hashable scalar values that can become dictionary
keys here (`True == 1` and `False == 0` hold in Python; lists and dicts are
unhashable and never become keys). -/
def keyEq (a b : Json) : Bool :=
  match a, b with
  | .null, .null => true
  | .bool x, .bool y => x == y
  | .bool x, .num m => (if x then 1 else 0 : Int) == m
  | .num n, .bool y => n == (if y then 1 else 0 : Int)
  | .num n, .num m => n == m
  | .str x, .str y => x == y
  | _, _ => false

/-- Whether a value may be used as a Python dictionary key. -/
def keyHashable : Json → Bool
  | .arr _ => false
  | .obj _ => false
  | _ => true

/-- `dict.get(k)` / `dict.get(k, d)` semantics: defined only on objects;
any other receiver raises `AttributeError`. -/
def jsonGet? (j : Json) (k : String) : Except Unit (Option Json) :=
  match j with
  | .obj kvs => .ok (((kvs.find? (fun p => p.1 == k))).map (·.2))
  | _ => .error ()

/-- `dict.get(k, d)` with a default. -/
def jsonGetD (j : Json) (k : String) (d : Json) : Except Unit Json :=
  (jsonGet? j k).map (fun o => o.getD d)

/-- Python iteration over a JSON-derived value: lists yield their elements,
strings their characters, dicts their keys; other values raise
`TypeError`. -/
def jsonIter : Json → Except Unit (List Json)
  | .arr xs => .ok xs
  | .str s => .ok (s.data.map (fun c => .str ⟨[c]⟩))
  | .obj kvs => .ok (kvs.map (fun p => .str p.1))
  | _ => .error ()

/-- Python `len()` on a JSON-derived value; unsized values raise. -/
def jsonLen : Json → Except Unit Nat
  | .arr xs => .ok xs.length
  | .str s => .ok s.data.length
  | .obj kvs => .ok kvs.length
  | _ => .error ()

/-- Python subscription `x[i]` with an integer index: list element, string
character, `KeyError` for dicts (JSON dict keys are strings), `TypeError`
otherwise. -/
def jsonIndex : Json → Nat → Except Unit Json
  | .arr xs, i =>
    match xs.get? i with
    | some x => .ok x
    | none => .error ()
  | .str s, i =>
    match s.data.get? i with
    | some c => .ok (.str ⟨[c]⟩)
    | none => .error ()
  | _, _ => .error ()

/-- Ordered-dictionary assignment `m[k] = v`: an existing key keeps its
position and takes the new value, a new key is appended. -/
def mapInsert (m : List (Json × String)) (k : Json) (v : String) :
    List (Json × String) :=
  if m.any (fun p => keyEq p.1 k) then
    m.map (fun p => if keyEq p.1 k then (p.1, v) else p)
  else m ++ [(k, v)]

/-! ## Removal of failed image references (line 190) -/

/-- Deterministic match of the regex `!\[([^\]]*)\]\(url\)` at the head of a
character list: on success returns the alt text and the remainder after the
match. -/
def tryMatch (s : List Char) (url : List Char) :
    Option (List Char × List Char) :=
  match s with
  | '!' :: '[' :: rest =>
    let alt := rest.takeWhile (· ≠ ']')
    (match rest.drop alt.length with
     | ']' :: '(' :: r3 =>
       if url.isPrefixOf r3 then
         match r3.drop url.length with
         | ')' :: r4 => some (alt, r4)
         | _ => none
       else none
     | _ => none)
  | _ => none

/-- Scan of `re.sub`: at each position, replace a match of the image pattern
by `[Image unavailable: alt]` and continue after it, otherwise keep the
character.  Fuel is the scanned length; every step consumes at least one
character. -/
def subImageFuel (url : List Char) : Nat → List Char → List Char
  | 0, _ => []
  | _ + 1, [] => []
  | f + 1, c :: rest =>
    match tryMatch (c :: rest) url with
    | some (alt, rem) =>
      ("[Image unavailable: ".data ++ alt ++ [']']) ++ subImageFuel url f rem
    | none => c :: subImageFuel url f rest

/-- `re.sub(rf'!\[([^\]]*)\]\(url\)', r'[Image unavailable: \1]', content)`:
the rewrite applied when the download of an external URL fails. -/
def subImage (content url : String) : String :=
  ⟨subImageFuel url.data content.data.length content.data⟩

/-- Whether the document still contains a match of the image-embed pattern
for `url` anywhere. -/
def hasImageRefFuel (url : List Char) : Nat → List Char → Bool
  | 0, _ => false
  | _ + 1, [] => false
  | f + 1, c :: rest =>
    (tryMatch (c :: rest) url).isSome || hasImageRefFuel url f rest

/-- Whether `s` contains markdown image-embed syntax referencing `url`. -/
def hasImageRef (s url : String) : Bool :=
  hasImageRefFuel url.data s.data.length s.data

/-! ## Asset resolution (`convert_text`, lines 159-198) -/

/-- Results of the three download helpers for one request, as functions of
the reference (the internal token and network are absorbed into the
oracle). `none` models a download that returned no local path. -/
structure Oracles where
  fetchAsset : Json → Option String
  fetchAttachment : Json → Option String
  fetchUrl : String → Option String

/-- Mutable state of the asset-processing block: the substitution map and
the (possibly rewritten) document text. -/
structure AState where
  map : List (Json × String)
  content : String

/-- One iteration of the internal-assets loop (lines 166-169): a successful
download maps the synthetic `asset://{id}` token to the local path, a
failure changes nothing. -/
def stepAsset (o : Oracles) (st : AState) (aid : Json) : AState :=
  match o.fetchAsset aid with
  | some p => { st with map := mapInsert st.map (.str ("asset://" ++ pyStrJson aid)) p }
  | none => st

/-- One iteration of the attachments loop (lines 174-178): a successful
download whose index has a paired original URL maps that URL to the local
path; evaluating `len` or the subscript on a malformed `attachment_urls`
raises (an `.error` result carries the state at the raise). -/
def stepAttachment (o : Oracles) (attUrls : Json) (st : AState)
    (iAndId : Nat × Json) : Except AState AState :=
  match o.fetchAttachment iAndId.2 with
  | none => .ok st
  | some p =>
    match jsonLen attUrls with
    | .error _ => .error st
    | .ok n =>
      if iAndId.1 < n then
        match jsonIndex attUrls iAndId.1 with
        | .error _ => .error st
        | .ok key =>
          if keyHashable key then
            .ok { st with map := mapInsert st.map key p }
          else .error st
      else .ok st

/-- One iteration of the external-URLs loop (lines 181-190): a successful
download maps the URL to the local path; a failed download rewrites the
document text, removing the image reference.  A non-string URL fails to
download and then raises `TypeError` inside `re.escape`. -/
def stepUrl (o : Oracles) (st : AState) (u : Json) : Except AState AState :=
  match u with
  | .str s =>
    match o.fetchUrl s with
    | some p => .ok { st with map := mapInsert st.map (.str s) p }
    | none => .ok { st with content := subImage st.content s }
  | _ => .error st

/-- Left fold threading the state through a loop whose body may raise. -/
def foldE (f : AState → α → Except AState AState) :
    AState → List α → Except AState AState
  | st, [] => .ok st
  | st, x :: xs =>
    match f st x with
    | .ok st2 => foldE f st2 xs
    | .error st2 => .error st2

/-- The body of the `try` block at lines 161-190, from the parsed bundle
value: read the token, then run the three loops in order.  An `.error`
result carries the state at the point the exception was raised. -/
def processBundle (j : Json) (o : Oracles) (st0 : AState) :
    Except AState AState :=
  match jsonGet? j "token" with
  | .error _ => .error st0
  | .ok _ =>
  match jsonGetD j "assets" (.arr []) with
  | .error _ => .error st0
  | .ok assetsVal =>
  match jsonIter assetsVal with
  | .error _ => .error st0
  | .ok assetIds =>
  let st1 := assetIds.foldl (stepAsset o) st0
  match jsonGetD j "attachments" (.arr []) with
  | .error _ => .error st1
  | .ok attVal =>
  match jsonGetD j "attachment_urls" (.arr []) with
  | .error _ => .error st1
  | .ok attUrls =>
  match jsonIter attVal with
  | .error _ => .error st1
  | .ok attIds =>
  match foldE (stepAttachment o attUrls) st1 attIds.enum with
  | .error st2 => .error st2
  | .ok st2 =>
  match jsonGetD j "urls" (.arr []) with
  | .error _ => .error st2
  | .ok urlsVal =>
  match jsonIter urlsVal with
  | .error _ => .error st2
  | .ok urls => foldE (stepUrl o) st2 urls

/-- The whole asset block (lines 159-193).  `assetsInput` is `none` when the
`assets` form field is falsy, `some (.error ())` when `json.loads` raised,
and `some (.ok j)` for a parsed bundle.  The surrounding
`except Exception: pass` keeps whatever state had accumulated when an
exception was raised. -/
def processAssets (assetsInput : Option (Except Unit Json)) (o : Oracles)
    (content0 : String) : AState :=
  match assetsInput with
  | none => ⟨[], content0⟩
  | some (.error _) => ⟨[], content0⟩
  | some (.ok j) =>
    match processBundle j o ⟨[], content0⟩ with
    | .ok st => st
    | .error st => st

/-- The substitution loop at lines 195-197: each map entry is applied with
`str.replace` in insertion order; a non-string key raises `TypeError`
outside any handler, failing the request. -/
def applyMapE : List (Json × String) → String → Except Unit String
  | [], c => .ok c
  | (k, v) :: rest, c =>
    match k with
    | .str s => applyMapE rest (pyReplace c s v)
    | _ => .error ()

/-- Document text after asset resolution and substitution, or an uncaught
error. -/
def rewriteDocument (assetsInput : Option (Except Unit Json)) (o : Oracles)
    (content0 : String) : Except Unit String :=
  let st := processAssets assetsInput o content0
  applyMapE st.map st.content

/-! ## Download helpers (`download_url` / `download_asset` /
`download_attachment`, lines 26-109) -/

/-- Maximum payload size enforced by the download helpers (10 MiB). -/
def MAX_ASSET_SIZE : Nat := 10 * 1024 * 1024

/-- A completed HTTP response: the payload byte count and the response
headers.  The byte content itself is never inspected beyond its length, so
it is modelled by the length. -/
structure HttpResp where
  contentLen : Nat
  headers : List (String × String)

/-- Header lookup mirroring `response.headers.get(name, '')`. -/
def headerGetD (r : HttpResp) (name : String) : String :=
  ((r.headers.find? (fun p => p.1 == name)).map (·.2)).getD ""

/-- `download_url` (lines 26-51): given the GET outcome (`.error` for any
raised exception — network failure, non-2xx status or timeout), returns the
local path (if any) together with the list of filenames written into the
workspace. -/
def download_url (url : String) (destDir : String)
    (resp : Except Unit HttpResp) : Option String × List String :=
  match resp with
  | .error _ => (none, [])
  | .ok r =>
    if r.contentLen > MAX_ASSET_SIZE then (none, [])
    else
      let dest := destDir ++ "/" ++ urlFilename url
      (some dest, [dest])

/-- Filename chosen by `download_asset` (lines 68-71): a server-supplied
disposition filename when present, else `asset_{id}.jpg`. -/
def dispositionName (r : HttpResp) (fallbackName : String) : String :=
  let cd := headerGetD r "content-disposition"
  if substrOf "filename=" cd then
    pyStripQuote ((cd.splitOn "filename=").getD 1 "")
  else fallbackName

/-- `download_asset` (lines 53-80). -/
def download_asset (assetId : Int) (destDir : String)
    (resp : Except Unit HttpResp) : Option String × List String :=
  match resp with
  | .error _ => (none, [])
  | .ok r =>
    if r.contentLen > MAX_ASSET_SIZE then (none, [])
    else
      let dest := destDir ++ "/" ++
        dispositionName r ("asset_" ++ toString assetId ++ ".jpg")
      (some dest, [dest])

/-- `download_attachment` (lines 82-109). -/
def download_attachment (attachmentId : Int) (destDir : String)
    (resp : Except Unit HttpResp) : Option String × List String :=
  match resp with
  | .error _ => (none, [])
  | .ok r =>
    if r.contentLen > MAX_ASSET_SIZE then (none, [])
    else
      let dest := destDir ++ "/" ++
        dispositionName r ("attachment_" ++ toString attachmentId ++ ".jpg")
      (some dest, [dest])

/-- Whether `x` and `y` occur as adjacent elements (in this order) of the
list: the shape in which one `-M key=value` or `--variable k:v` option pair
occurs in an assembled invocation. -/
def adjPair (x y : String) : List String → Bool
  | a :: b :: rest => (a == x && b == y) || adjPair x y (b :: rest)
  | _ => false

end Gateway

namespace Extraction

/-! ## MarkItDown extraction service (`docker/markitdown/app.py`) -/

/-- Exception classes distinguished by the handlers of the service: a
`requests.RequestException`, a FastAPI `HTTPException` carrying a status,
or any other exception. -/
inductive PyExc where
  | reqExc (msg : String)
  | http (status : Nat) (detail : String)
  | generic (msg : String)

/-- Outcome of an endpoint: the successful markdown text or the HTTP error
status and detail raised to the client. -/
inductive Outcome where
  | success (markdown : String)
  | httpError (status : Nat) (detail : String)

/-- Result of `MarkItDown().convert` on the temporary file: the extracted
text, or the exception class it raised. -/
abbrev ConvertOracle := Except PyExc String

/-- `convert_url` (lines 58-103): a download failure
(`requests.RequestException`, including `raise_for_status`) maps to 400;
any exception during conversion maps to 500. -/
def convert_url (download : Except String Gateway.HttpResp)
    (conv : ConvertOracle) : Outcome :=
  match download with
  | .error m => .httpError 400 ("Failed to download URL: " ++ m)
  | .ok _ =>
    match conv with
    | .error (.reqExc m) => .httpError 400 ("Failed to download URL: " ++ m)
    | .error (.http s d) => .httpError 500 ("Conversion failed: " ++ toString s ++ ": " ++ d)
    | .error (.generic m) => .httpError 500 ("Conversion failed: " ++ m)
    | .ok md => .success md

/-- `convert_file` (lines 105-167): an uploaded payload over 50 MiB raises
`HTTPException(413)`, which the `except HTTPException: raise` handler
re-raises unchanged; any other exception is wrapped into a 500. -/
def convert_file (fileLen : Nat) (conv : ConvertOracle) : Outcome :=
  if fileLen > 50 * 1024 * 1024 then
    .httpError 413 "File too large (max 50MB)"
  else
    match conv with
    | .error (.http s d) => .httpError s d
    | .error (.reqExc m) => .httpError 500 ("File conversion failed: " ++ m)
    | .error (.generic m) => .httpError 500 ("File conversion failed: " ++ m)
    | .ok md => .success md

end Extraction

namespace Gateway

/-! ## General lemmas -/

set_option maxRecDepth 100000 in
/-- Sanity check of the MD5 embedding on the standard test vector. -/
theorem md5_abc_vector :
    md5hex (utf8 "abc") = "900150983cd24fb0d6963f7d28e17f72" := by
  decide

/-- Strings with different first characters are not `==`. -/
theorem beq_false_of_head {s t : String} {c d : Char}
    (hs : s.data.head? = some c) (ht : t.data.head? = some d) (h : c ≠ d) :
    (s == t) = false := by
  apply beq_eq_false_iff_ne.mpr
  intro he
  subst he
  rw [hs] at ht
  exact h (Option.some.inj ht)

/-- A string containing a character the other lacks is not `==` to it. -/
theorem beq_false_of_mem {s t : String} {c : Char}
    (h1 : c ∈ s.data) (h2 : c ∉ t.data) : (s == t) = false := by
  apply beq_eq_false_iff_ne.mpr
  intro he
  subst he
  exact h2 h1

/-- `adjPair` skips over a prefix that does not contain its first element. -/
theorem adjPair_append_of_not_mem (x y : String) (l1 l2 : List String)
    (h : x ∉ l1) : adjPair x y (l1 ++ l2) = adjPair x y l2 := by
  induction l1 with
  | nil => rfl
  | cons a l1' ih =>
    have hax : (a == x) = false :=
      beq_eq_false_iff_ne.mpr (fun he => h (he ▸ List.mem_cons_self a l1'))
    have h' : x ∉ l1' := fun hm => h (List.mem_cons_of_mem a hm)
    cases h2 : l1' ++ l2 with
    | nil =>
      obtain ⟨hl1, hl2⟩ := List.append_eq_nil.mp h2
      subst hl1
      subst hl2
      rfl
    | cons b rest =>
      show adjPair x y (a :: (l1' ++ l2)) = adjPair x y l2
      rw [h2]
      show ((a == x && b == y) || adjPair x y (b :: rest)) = adjPair x y l2
      rw [hax, Bool.false_and, Bool.false_or, ← h2, ih h']

/-- `Nat` length of `leBytes`. -/
theorem leBytes_length (k n : Nat) : (leBytes k n).length = k := by
  induction k generalizing n with
  | zero => rfl
  | succ k ih => simp [leBytes, ih]

/-- An MD5 digest has sixteen bytes. -/
theorem md5bytes_length (m : List Nat) : (md5bytes m).length = 16 := by
  unfold md5bytes
  simp [leBytes_length]

/-- Hex encoding doubles the length. -/
theorem flatMap_byteHex_length (l : List Nat) :
    (l.flatMap byteHex).length = 2 * l.length := by
  induction l with
  | nil => rfl
  | cons b t ih =>
    simp [List.flatMap_cons, byteHex, ih]
    omega

/-- An MD5 hex digest has 32 characters. -/
theorem md5hex_length (m : List Nat) : (md5hex m).data.length = 32 := by
  show (((md5bytes m).flatMap byteHex)).length = 32
  rw [flatMap_byteHex_length, md5bytes_length]

/-- The truncated URL hash has exactly eight characters. -/
theorem urlHash8_length (url : String) : (urlHash8 url).data.length = 8 := by
  show ((md5hex (utf8 url)).data.take 8).length = 8
  rw [List.length_take, md5hex_length]
  decide

/-! ## C6: frontmatter scan bound -/

/-- C6 (confirmed).  Frontmatter classification scans for the closing
delimiter only within the first 100 lines: any document whose stripped text
begins with `---` but whose closing `---` line is not found by that bounded
scan is classified as having no frontmatter and an empty field set. -/
theorem frontmatter_unterminated_bound (content : String)
    (h1 : pyStartsWith (pyStrip content) "---" = true)
    (h2 : findCloseIdx (pySplitLines content) = none) :
    computeFrontmatter content = (false, []) := by
  unfold computeFrontmatter
  rw [h1]
  simp only [if_true]
  split
  · rw [h2]
  · rfl

set_option maxRecDepth 1000000 in
/-- Witness for C6: a document whose delimiter block spans 150 lines with no
closing `---` is classified as frontmatter-free. -/
theorem frontmatter_unterminated_bound_witness :
    pyStartsWith (pyStrip ("---\n" ++ String.intercalate "\n" (List.replicate 150 "k: v"))) "---" = true
    ∧ computeFrontmatter ("---\n" ++ String.intercalate "\n" (List.replicate 150 "k: v")) = (false, []) :=
  ⟨by decide, frontmatter_unterminated_bound _ (by decide) (by decide)⟩

/-! ## C9: oversize guard -/

/-- C9 (confirmed).  For each of the three fetchers, a response whose
payload exceeds 10 MiB yields no local path and writes no file — not even a
partial one — into the workspace. -/
theorem oversize_fetch_no_file (url destDir : String) (aid attId : Int)
    (r : HttpResp) (h : r.contentLen > MAX_ASSET_SIZE) :
    download_url url destDir (.ok r) = (none, [])
    ∧ download_asset aid destDir (.ok r) = (none, [])
    ∧ download_attachment attId destDir (.ok r) = (none, []) := by
  refine ⟨?_, ?_, ?_⟩ <;> simp [download_url, download_asset, download_attachment, h]

/-- Witness for C9 at a payload one byte over the cap. -/
theorem oversize_fetch_no_file_witness :
    (HttpResp.mk 10485761 []).contentLen > MAX_ASSET_SIZE
    ∧ download_url "https://x/a.png" "/w/assets" (.ok ⟨10485761, []⟩) = (none, [])
    ∧ download_asset 7 "/w/assets" (.ok ⟨10485761, []⟩) = (none, [])
    ∧ download_attachment 9 "/w/assets" (.ok ⟨10485761, []⟩) = (none, []) :=
  ⟨by decide, oversize_fetch_no_file "https://x/a.png" "/w/assets" 7 9 _ (by decide)⟩

/-! ## C4: external-URL filename derivation -/

set_option maxRecDepth 1000000 in
/-- Counterexample for C4.  Two distinct URLs whose MD5 hex digests agree on
the first eight characters and whose extensions agree receive the same
derived filename, so distinct URLs can collide. -/
theorem url_filename_collision :
    "https://img.example/9295.png" ≠ "https://img.example/49145.png"
    ∧ urlFilename "https://img.example/9295.png"
      = urlFilename "https://img.example/49145.png" := by
  constructor
  · decide
  · decide

/-- C4 as amended (the derivation is deterministic, but collision-freedom
only holds up to the truncated hash): two URLs receive the same filename
exactly when their eight-character truncated hashes and their
defaulted extensions both coincide — which does happen for distinct
URLs. -/
theorem url_filename_collision_iff (u1 u2 : String) :
    urlFilename u1 = urlFilename u2
      ↔ (urlHash8 u1 = urlHash8 u2 ∧ urlExt u1 = urlExt u2) := by
  constructor
  · intro h
    have hd : ("url_" ++ urlHash8 u1 ++ urlExt u1).data
        = ("url_" ++ urlHash8 u2 ++ urlExt u2).data := congrArg String.data h
    rw [String.data_append, String.data_append, String.data_append,
      String.data_append] at hd
    rw [List.append_assoc, List.append_assoc] at hd
    have hd2 := List.append_cancel_left hd
    have hlen : (urlHash8 u1).data.length = (urlHash8 u2).data.length := by
      rw [urlHash8_length, urlHash8_length]
    obtain ⟨hh, he⟩ := List.append_inj hd2 hlen
    exact ⟨String.ext hh, String.ext he⟩
  · intro ⟨hh, he⟩
    unfold urlFilename
    rw [hh, he]

/-! ## Option-list disambiguation lemmas -/

/-- Strings are distinct when one contains a character the other lacks
(membership on the right operand). -/
theorem ne_of_mem_not_mem {s t : String} {c : Char}
    (h1 : c ∈ t.data) (h2 : c ∉ s.data) : s ≠ t :=
  fun he => h2 (he ▸ h1)

/-- Character membership in the right part of an appended string. -/
theorem mem_data_append_right (a : String) {b : String} {c : Char}
    (hb : c ∈ b.data) : c ∈ (a ++ b).data := by
  rw [String.data_append]
  exact List.mem_append_right _ hb

/-- Character membership in the left part of an appended string. -/
theorem mem_data_append_left {a : String} (b : String) {c : Char}
    (ha : c ∈ a.data) : c ∈ (a ++ b).data := by
  rw [String.data_append]
  exact List.mem_append_left _ ha

/-- The colon in a `--variable key:value` payload. -/
theorem colon_mem_var (k v : String) : ':' ∈ (k ++ ":" ++ v).data :=
  mem_data_append_left v (mem_data_append_right k (by decide))

/-- The dot in the input-file path. -/
theorem dot_mem_input (tmpdir : String) :
    '.' ∈ (tmpdir ++ "/input.md").data :=
  mem_data_append_right tmpdir (by decide)

/-- The dot in the output-file path. -/
theorem dot_mem_output (tmpdir fmt : String) :
    '.' ∈ (tmpdir ++ "/output." ++ fmt).data :=
  mem_data_append_left fmt (mem_data_append_right tmpdir (by decide))

/-- The dot in the generated header path. -/
theorem dot_mem_header (tmpdir : String) :
    '.' ∈ (tmpdir ++ "/header.tex").data :=
  mem_data_append_right tmpdir (by decide)

/-- The dot in a template path. -/
theorem dot_mem_template (t : String) :
    '.' ∈ ("/app/templates/" ++ t ++ ".latex").data :=
  mem_data_append_right ("/app/templates/" ++ t) (by decide)

/-- `-M` never occurs among the variable options generated from a parsed
fonts/colors dictionary. -/
theorem dash_M_not_mem_varOpts (kvs : List (String × String)) :
    "-M" ∉ kvs.flatMap (fun p => ["--variable", p.1 ++ ":" ++ p.2]) := by
  intro h
  rw [List.mem_flatMap] at h
  obtain ⟨p, _, hp⟩ := h
  simp only [List.mem_cons, List.not_mem_nil, or_false] at hp
  rcases hp with hp | hp
  · exact absurd hp (by decide)
  · have hc := colon_mem_var p.1 p.2
    rw [← hp] at hc
    exact absurd hc (by decide)

/-- `-M` never occurs among the color options. -/
theorem dash_M_not_mem_colorOpts
    (colors : Option (Except Unit (List (String × String)))) :
    "-M" ∉ colorOpts colors := by
  match colors with
  | none => decide
  | some (.error ()) => decide
  | some (.ok kvs) => exact dash_M_not_mem_varOpts kvs

/-- `-M` never occurs among the font options. -/
theorem dash_M_not_mem_fontOpts
    (fonts : Option (Except Unit (List (String × String)))) :
    "-M" ∉ fontOpts fonts := by
  match fonts with
  | none => exact List.not_mem_nil "-M"
  | some (.error ()) => exact List.not_mem_nil "-M"
  | some (.ok kvs) => exact dash_M_not_mem_varOpts kvs

/-- `-M` never occurs among the template options. -/
theorem dash_M_not_mem_templateOpts (template : Option String)
    (fsEx : String → Bool) : "-M" ∉ templateOpts template fsEx := by
  cases hT : pyTruthy template
  · simp [templateOpts, hT]
  · cases hE : fsEx ("/app/templates/" ++ template.getD "" ++ ".latex")
    · simp [templateOpts, hT, hE]
    · have hne : "-M" ≠ "/app/templates/" ++ template.getD "" ++ ".latex" :=
        ne_of_mem_not_mem (dot_mem_template (template.getD "")) (by decide)
      simp [templateOpts, hT, hE, hne]

/-- `-M` never occurs in the part of the first invocation that precedes the
metadata options. -/
theorem dash_M_not_mem_cmd_lead (tmpdir fmt : String)
    (colors fonts : Option (Except Unit (List (String × String))))
    (template : Option String) (fsEx : String → Bool) :
    "-M" ∉ (["pandoc", tmpdir ++ "/input.md", "-o",
        tmpdir ++ "/output." ++ fmt]
      ++ (if fmt == "pdf" then pdfOpts tmpdir colors fonts template fsEx
          else [])) := by
  intro h
  rcases List.mem_append.mp h with h | h
  · simp only [List.mem_cons, List.not_mem_nil, or_false] at h
    rcases h with h | h | h | h
    · exact absurd h (by decide)
    · exact absurd h (ne_of_mem_not_mem (dot_mem_input tmpdir) (by decide))
    · exact absurd h (by decide)
    · exact absurd h (ne_of_mem_not_mem (dot_mem_output tmpdir fmt) (by decide))
  · rcases hf : (fmt == "pdf") with _ | _
    · rw [hf] at h
      exact absurd h (List.not_mem_nil "-M")
    · rw [hf] at h
      simp only [if_true] at h
      unfold pdfOpts at h
      rcases List.mem_append.mp h with h | h
      · rcases List.mem_append.mp h with h | h
        · rcases List.mem_append.mp h with h | h
          · simp only [List.mem_cons, List.not_mem_nil, or_false] at h
            rcases h with h | h | h | h | h | h | h
            · exact absurd h (by decide)
            · exact absurd h (by decide)
            · exact absurd h (by decide)
            · exact absurd h (by decide)
            · exact absurd h (by decide)
            · exact absurd h (by decide)
            · exact absurd h
                (ne_of_mem_not_mem (dot_mem_header tmpdir) (by decide))
          · exact dash_M_not_mem_colorOpts colors h
        · exact dash_M_not_mem_fontOpts fonts h
      · exact dash_M_not_mem_templateOpts template fsEx h

/-- Title-pair occurrence in the metadata options is exactly the injection
condition of the source. -/
theorem adjPair_metadataOpts_title (t : String) (author : Option String)
    (fields : List String) (nd : String) :
    adjPair "-M" ("title=" ++ t) (metadataOpts (some t) author fields nd)
      = (!t.isEmpty && !(fields.contains "title")) := by
  have hta : ∀ a : String, (("author=" ++ a) == ("title=" ++ t)) = false :=
    fun a => beq_false_of_head rfl rfl (by decide)
  have htd : (("date=" ++ nd) == ("title=" ++ t)) = false :=
    beq_false_of_head rfl rfl (by decide)
  have haM : ∀ a : String, (("author=" ++ a) == "-M") = false :=
    fun a => beq_false_of_head rfl rfl (by decide)
  have hdM : (("date=" ++ nd) == "-M") = false :=
    beq_false_of_head rfl rfl (by decide)
  unfold metadataOpts
  cases hTe : t.isEmpty <;>
    cases hTc : fields.contains "title" <;>
      cases hPA : pyTruthy author <;>
        cases hAc : fields.contains "author" <;>
          cases hDc : fields.contains "date" <;>
            simp [hTe, hTc, hPA, hAc, hDc, pyTruthy, adjPair, hta, htd, haM, hdM]

/-- Author-pair occurrence in the metadata options is exactly the injection
condition of the source. -/
theorem adjPair_metadataOpts_author (a : String) (title : Option String)
    (fields : List String) (nd : String) :
    adjPair "-M" ("author=" ++ a) (metadataOpts title (some a) fields nd)
      = (!a.isEmpty && !(fields.contains "author")) := by
  have hat : ∀ t : String, (("title=" ++ t) == ("author=" ++ a)) = false :=
    fun t => beq_false_of_head rfl rfl (by decide)
  have had : (("date=" ++ nd) == ("author=" ++ a)) = false :=
    beq_false_of_head rfl rfl (by decide)
  have htM : ∀ t : String, (("title=" ++ t) == "-M") = false :=
    fun t => beq_false_of_head rfl rfl (by decide)
  have hdM : (("date=" ++ nd) == "-M") = false :=
    beq_false_of_head rfl rfl (by decide)
  unfold metadataOpts
  cases hPT : pyTruthy title <;>
    cases hTc : fields.contains "title" <;>
      cases hAe : a.isEmpty <;>
        cases hAc : fields.contains "author" <;>
          cases hDc : fields.contains "date" <;>
            simp [hPT, hTc, hAe, hAc, hDc, pyTruthy, adjPair, hat, had, htM, hdM]

/-- Date-pair occurrence in the metadata options is exactly the absence of
`date` from the frontmatter fields. -/
theorem adjPair_metadataOpts_date (title author : Option String)
    (fields : List String) (nd : String) :
    adjPair "-M" ("date=" ++ nd) (metadataOpts title author fields nd)
      = !(fields.contains "date") := by
  have hat : ∀ t : String, (("title=" ++ t) == ("date=" ++ nd)) = false :=
    fun t => beq_false_of_head rfl rfl (by decide)
  have haa : ∀ a : String, (("author=" ++ a) == ("date=" ++ nd)) = false :=
    fun a => beq_false_of_head rfl rfl (by decide)
  have htM : ∀ t : String, (("title=" ++ t) == "-M") = false :=
    fun t => beq_false_of_head rfl rfl (by decide)
  have haM : ∀ a : String, (("author=" ++ a) == "-M") = false :=
    fun a => beq_false_of_head rfl rfl (by decide)
  unfold metadataOpts
  cases hPT : pyTruthy title <;>
    cases hTc : fields.contains "title" <;>
      cases hPA : pyTruthy author <;>
        cases hAc : fields.contains "author" <;>
          cases hDc : fields.contains "date" <;>
            simp [hPT, hTc, hPA, hAc, hDc, adjPair, hat, haa, htM, haM]

/-! ## C5: metadata injection respects frontmatter -/

/-- C5 (confirmed).  In the first (non-fallback) invocation the title
option is injected exactly when `title` is truthy and absent from the
frontmatter field set, the author option likewise, and the date option with
the current date exactly when `date` is absent; in particular a document
whose frontmatter already carries `title: Foo` receives no title override
for a requested title `Bar`. -/
theorem metadata_injection_respects_frontmatter :
    (∀ (tmpdir fmt : String)
      (colors fonts : Option (Except Unit (List (String × String))))
      (template : Option String) (fsEx : String → Bool) (t : String)
      (author : Option String) (fields : List String) (nd : String),
      adjPair "-M" ("title=" ++ t)
          (buildCmd tmpdir fmt colors fonts template fsEx (some t) author fields nd)
        = (!t.isEmpty && !(fields.contains "title")))
    ∧ (∀ (tmpdir fmt : String)
      (colors fonts : Option (Except Unit (List (String × String))))
      (template : Option String) (fsEx : String → Bool) (a : String)
      (title : Option String) (fields : List String) (nd : String),
      adjPair "-M" ("author=" ++ a)
          (buildCmd tmpdir fmt colors fonts template fsEx title (some a) fields nd)
        = (!a.isEmpty && !(fields.contains "author")))
    ∧ (∀ (tmpdir fmt : String)
      (colors fonts : Option (Except Unit (List (String × String))))
      (template : Option String) (fsEx : String → Bool)
      (title author : Option String) (fields : List String) (nd : String),
      adjPair "-M" ("date=" ++ nd)
          (buildCmd tmpdir fmt colors fonts template fsEx title author fields nd)
        = !(fields.contains "date"))
    ∧ (computeFrontmatter "---\ntitle: Foo\n---\nBody").2.contains "title" = true
    ∧ adjPair "-M" "title=Bar"
        (buildCmd "/w" "pdf" none none none (fun _ => false) (some "Bar") none
          (computeFrontmatter "---\ntitle: Foo\n---\nBody").2 "May 01, 2025")
      = false := by
  refine ⟨?_, ?_, ?_, by decide, by decide⟩
  · intro tmpdir fmt colors fonts template fsEx t author fields nd
    unfold buildCmd
    rw [adjPair_append_of_not_mem _ _ _ _
      (dash_M_not_mem_cmd_lead tmpdir fmt colors fonts template fsEx)]
    exact adjPair_metadataOpts_title t author fields nd
  · intro tmpdir fmt colors fonts template fsEx a title fields nd
    unfold buildCmd
    rw [adjPair_append_of_not_mem _ _ _ _
      (dash_M_not_mem_cmd_lead tmpdir fmt colors fonts template fsEx)]
    exact adjPair_metadataOpts_author a title fields nd
  · intro tmpdir fmt colors fonts template fsEx title author fields nd
    unfold buildCmd
    rw [adjPair_append_of_not_mem _ _ _ _
      (dash_M_not_mem_cmd_lead tmpdir fmt colors fonts template fsEx)]
    exact adjPair_metadataOpts_date title author fields nd

/-- Strings with different first characters are distinct. -/
theorem ne_of_head {s t : String} {c d : Char}
    (hs : s.data.head? = some c) (ht : t.data.head? = some d) (h : c ≠ d) :
    s ≠ t := by
  intro he
  subst he
  rw [hs] at ht
  exact h (Option.some.inj ht)

/-! ## C1: fallback trigger condition -/

/-- Unfolding of `runConversion` once the first engine run is known to have
completed. -/
theorem runConversion_eq (cmd : List String) (fmt : String)
    (template title author : Option String) (nd inF outF : String)
    (engine : List String → EngineOut) (rc : Int) (sout serr : String)
    (h1 : engine cmd = .ran rc sout serr) :
    runConversion cmd fmt template title author nd inF outF engine =
      (if rc != 0 then
        if fmt == "pdf" && pyTruthy template
            && substrOf "! LaTeX Error" serr then
          match engine (cmdFallback inF outF title author nd) with
          | .timeout => ([cmd, cmdFallback inF outF title author nd], some 504)
          | .ran rc2 _ _ =>
            if rc2 != 0 then
              ([cmd, cmdFallback inF outF title author nd], some 500)
            else ([cmd, cmdFallback inF outF title author nd], none)
        else ([cmd], some 500)
      else ([cmd], none)) := by
  unfold runConversion
  rw [h1]

/-- C1 (confirmed).  When the first invocation exits non-zero, a second
(fallback) invocation is issued if and only if the format is PDF, a
template was requested, and the first invocation's stderr contains the
LaTeX-error marker; when triggered, the second invocation is the fallback
command, and otherwise the request fails terminally with status 500 after
the single invocation. -/
theorem fallback_trigger_iff (tmpdir fmt : String)
    (colors fonts : Option (Except Unit (List (String × String))))
    (template : Option String) (fsEx : String → Bool)
    (title author : Option String) (fields : List String) (nd : String)
    (engine : List String → EngineOut) (cmd1 : List String) (rc : Int)
    (sout serr : String)
    (hc : cmd1 = buildCmd tmpdir fmt colors fonts template fsEx title author
      fields nd)
    (h1 : engine cmd1 = .ran rc sout serr) (h2 : rc ≠ 0) :
    ((runConversion cmd1 fmt template title author nd (tmpdir ++ "/input.md")
        (tmpdir ++ "/output." ++ fmt) engine).1.length = 2
      ↔ (fmt = "pdf" ∧ pyTruthy template = true
          ∧ substrOf "! LaTeX Error" serr = true))
    ∧ ((fmt = "pdf" ∧ pyTruthy template = true
          ∧ substrOf "! LaTeX Error" serr = true) →
        (runConversion cmd1 fmt template title author nd (tmpdir ++ "/input.md")
          (tmpdir ++ "/output." ++ fmt) engine).1
        = [cmd1, cmdFallback (tmpdir ++ "/input.md")
            (tmpdir ++ "/output." ++ fmt) title author nd])
    ∧ (¬(fmt = "pdf" ∧ pyTruthy template = true
          ∧ substrOf "! LaTeX Error" serr = true) →
        runConversion cmd1 fmt template title author nd (tmpdir ++ "/input.md")
          (tmpdir ++ "/output." ++ fmt) engine = ([cmd1], some 500)) := by
  have hrc : (rc != 0) = true := bne_iff_ne.mpr h2
  rw [runConversion_eq cmd1 fmt template title author nd _ _ engine rc sout serr h1]
  rw [if_pos hrc]
  cases hb : (fmt == "pdf" && pyTruthy template && substrOf "! LaTeX Error" serr)
  · have hnt : ¬(fmt = "pdf" ∧ pyTruthy template = true
        ∧ substrOf "! LaTeX Error" serr = true) := by
      rintro ⟨hf, hp, hs⟩
      subst hf
      rw [hp, hs] at hb
      simp at hb
    rw [if_neg (by simp)]
    exact ⟨⟨fun hlen => by simp at hlen, fun ht => absurd ht hnt⟩,
      fun ht => absurd ht hnt, fun _ => rfl⟩
  · have h3 := hb
    rw [Bool.and_assoc, Bool.and_eq_true, Bool.and_eq_true] at h3
    have ht : fmt = "pdf" ∧ pyTruthy template = true
        ∧ substrOf "! LaTeX Error" serr = true :=
      ⟨eq_of_beq h3.1, h3.2.1, h3.2.2⟩
    rw [if_pos rfl]
    cases he : engine (cmdFallback (tmpdir ++ "/input.md")
        (tmpdir ++ "/output." ++ fmt) title author nd)
    · exact ⟨⟨fun _ => ht, fun _ => by simp⟩, fun _ => by simp,
        fun hn => absurd ht hn⟩
    · rename_i rc2 sout2 serr2
      cases hrc2 : (rc2 != 0) <;>
        exact ⟨⟨fun _ => ht, fun _ => by simp [hrc2]⟩, fun _ => by simp [hrc2],
          fun hn => absurd ht hn⟩

/-- Witness for C1: a PDF request with a template whose first run fails
with a LaTeX-error marker issues exactly two invocations. -/
theorem fallback_trigger_iff_witness :
    (1 : Int) ≠ 0
    ∧ (runConversion
        (buildCmd "/t" "pdf" none none (some "custom") (fun _ => false)
          none none [] "May 01, 2025")
        "pdf" (some "custom") none none "May 01, 2025" ("/t" ++ "/input.md")
        ("/t" ++ "/output." ++ "pdf")
        (fun _ => .ran 1 "" "! LaTeX Error: Missing style")).1.length = 2 :=
  ⟨by decide,
    (fallback_trigger_iff "/t" "pdf" none none (some "custom") (fun _ => false)
      none none [] "May 01, 2025"
      (fun _ => .ran 1 "" "! LaTeX Error: Missing style") _ 1 ""
      "! LaTeX Error: Missing style" rfl rfl (by decide)).1.mpr
      ⟨rfl, by decide, by decide⟩⟩

/-! ## C2: shape of the fallback invocation -/

/-- Counterexample for C2.  The fallback invocation does not keep the
metadata-injection rule of Attempt 1: with frontmatter fields
`{title, date}`, Attempt 1 injects neither a title override nor a date, but
the fallback invocation injects both. -/
theorem fallback_metadata_ignores_frontmatter :
    (computeFrontmatter "---\ntitle: Foo\ndate: X\n---\nBody").2.contains "title" = true
    ∧ (computeFrontmatter "---\ntitle: Foo\ndate: X\n---\nBody").2.contains "date" = true
    ∧ adjPair "-M" "title=Bar"
        (buildCmd "/w" "pdf" none none (some "custom") (fun _ => true)
          (some "Bar") none
          (computeFrontmatter "---\ntitle: Foo\ndate: X\n---\nBody").2
          "May 01, 2025") = false
    ∧ adjPair "-M" "date=May 01, 2025"
        (buildCmd "/w" "pdf" none none (some "custom") (fun _ => true)
          (some "Bar") none
          (computeFrontmatter "---\ntitle: Foo\ndate: X\n---\nBody").2
          "May 01, 2025") = false
    ∧ adjPair "-M" "title=Bar"
        (cmdFallback "/w/input.md" "/w/output.pdf" (some "Bar") none
          "May 01, 2025") = true
    ∧ adjPair "-M" "date=May 01, 2025"
        (cmdFallback "/w/input.md" "/w/output.pdf" (some "Bar") none
          "May 01, 2025") = true := by
  refine ⟨by decide, by decide, by decide, by decide, by decide, by decide⟩

/-- C2 as amended.  The fallback invocation drops the template and the
custom image-sizing header, keeps the default link-color styling, and
injects `title`/`author` whenever they are truthy and the date
unconditionally, without consulting the frontmatter field set. -/
theorem fallback_cmd_shape (tmpdir fmt : String) (title author : Option String)
    (nd : String) :
    "--template" ∉ cmdFallback (tmpdir ++ "/input.md")
        (tmpdir ++ "/output." ++ fmt) title author nd
    ∧ "--include-in-header" ∉ cmdFallback (tmpdir ++ "/input.md")
        (tmpdir ++ "/output." ++ fmt) title author nd
    ∧ adjPair "--variable" "linkcolor:blue" (cmdFallback (tmpdir ++ "/input.md")
        (tmpdir ++ "/output." ++ fmt) title author nd) = true
    ∧ adjPair "--variable" "urlcolor:blue" (cmdFallback (tmpdir ++ "/input.md")
        (tmpdir ++ "/output." ++ fmt) title author nd) = true
    ∧ adjPair "--variable" "toccolor:blue" (cmdFallback (tmpdir ++ "/input.md")
        (tmpdir ++ "/output." ++ fmt) title author nd) = true
    ∧ (∀ t : String, adjPair "-M" ("title=" ++ t)
        (cmdFallback (tmpdir ++ "/input.md") (tmpdir ++ "/output." ++ fmt)
          (some t) author nd) = !t.isEmpty)
    ∧ (∀ a : String, adjPair "-M" ("author=" ++ a)
        (cmdFallback (tmpdir ++ "/input.md") (tmpdir ++ "/output." ++ fmt)
          title (some a) nd) = !a.isEmpty)
    ∧ adjPair "-M" ("date=" ++ nd) (cmdFallback (tmpdir ++ "/input.md")
        (tmpdir ++ "/output." ++ fmt) title author nd) = true := by
  refine ⟨?_, ?_, ?_, ?_, ?_, ?_, ?_, ?_⟩
  · have n1 : "--template" ≠ tmpdir ++ "/input.md" :=
      ne_of_mem_not_mem (dot_mem_input tmpdir) (by decide)
    have n2 : "--template" ≠ tmpdir ++ "/output." ++ fmt :=
      ne_of_mem_not_mem (dot_mem_output tmpdir fmt) (by decide)
    have n3 : ∀ u : String, "--template" ≠ "title=" ++ u :=
      fun u => ne_of_head rfl rfl (by decide)
    have n4 : ∀ u : String, "--template" ≠ "author=" ++ u :=
      fun u => ne_of_head rfl rfl (by decide)
    have n5 : "--template" ≠ "date=" ++ nd := ne_of_head rfl rfl (by decide)
    cases hT : pyTruthy title <;> cases hA : pyTruthy author <;>
      simp [cmdFallback, hT, hA, n1, n2, n3, n4, n5]
  · have n1 : "--include-in-header" ≠ tmpdir ++ "/input.md" :=
      ne_of_mem_not_mem (dot_mem_input tmpdir) (by decide)
    have n2 : "--include-in-header" ≠ tmpdir ++ "/output." ++ fmt :=
      ne_of_mem_not_mem (dot_mem_output tmpdir fmt) (by decide)
    have n3 : ∀ u : String, "--include-in-header" ≠ "title=" ++ u :=
      fun u => ne_of_head rfl rfl (by decide)
    have n4 : ∀ u : String, "--include-in-header" ≠ "author=" ++ u :=
      fun u => ne_of_head rfl rfl (by decide)
    have n5 : "--include-in-header" ≠ "date=" ++ nd :=
      ne_of_head rfl rfl (by decide)
    cases hT : pyTruthy title <;> cases hA : pyTruthy author <;>
      simp [cmdFallback, hT, hA, n1, n2, n3, n4, n5]
  · simp [cmdFallback, adjPair]
  · simp [cmdFallback, adjPair]
  · simp [cmdFallback, adjPair]
  · intro t
    have fo : ("-o" == ("title=" ++ t)) = false :=
      beq_false_of_head rfl rfl (by decide)
    have fpe : ("--pdf-engine" == ("title=" ++ t)) = false :=
      beq_false_of_head rfl rfl (by decide)
    have fta : ∀ u : String, (("author=" ++ u) == ("title=" ++ t)) = false :=
      fun u => beq_false_of_head rfl rfl (by decide)
    have ftd : (("date=" ++ nd) == ("title=" ++ t)) = false :=
      beq_false_of_head rfl rfl (by decide)
    have faM : ∀ u : String, (("author=" ++ u) == "-M") = false :=
      fun u => beq_false_of_head rfl rfl (by decide)
    have fdM : (("date=" ++ nd) == "-M") = false :=
      beq_false_of_head rfl rfl (by decide)
    have hpt : pyTruthy (some t) = !t.isEmpty := rfl
    cases hTe : t.isEmpty <;> cases hA : pyTruthy author <;>
      simp [cmdFallback, adjPair, hpt, hTe, hA, fo, fpe, fta, ftd, faM, fdM]
  · intro a
    have fo : ("-o" == ("author=" ++ a)) = false :=
      beq_false_of_head rfl rfl (by decide)
    have fpe : ("--pdf-engine" == ("author=" ++ a)) = false :=
      beq_false_of_head rfl rfl (by decide)
    have fat : ∀ u : String, (("title=" ++ u) == ("author=" ++ a)) = false :=
      fun u => beq_false_of_head rfl rfl (by decide)
    have fad : (("date=" ++ nd) == ("author=" ++ a)) = false :=
      beq_false_of_head rfl rfl (by decide)
    have ftM : ∀ u : String, (("title=" ++ u) == "-M") = false :=
      fun u => beq_false_of_head rfl rfl (by decide)
    have fdM : (("date=" ++ nd) == "-M") = false :=
      beq_false_of_head rfl rfl (by decide)
    have hpa : pyTruthy (some a) = !a.isEmpty := rfl
    cases hT : pyTruthy title <;> cases hAe : a.isEmpty <;>
      simp [cmdFallback, adjPair, hpa, hT, hAe, fo, fpe, fat, fad, ftM, fdM]
  · have fo : ("-o" == ("date=" ++ nd)) = false :=
      beq_false_of_head rfl rfl (by decide)
    have fpe : ("--pdf-engine" == ("date=" ++ nd)) = false :=
      beq_false_of_head rfl rfl (by decide)
    have fat : ∀ u : String, (("title=" ++ u) == ("date=" ++ nd)) = false :=
      fun u => beq_false_of_head rfl rfl (by decide)
    have faa : ∀ u : String, (("author=" ++ u) == ("date=" ++ nd)) = false :=
      fun u => beq_false_of_head rfl rfl (by decide)
    have ftM : ∀ u : String, (("title=" ++ u) == "-M") = false :=
      fun u => beq_false_of_head rfl rfl (by decide)
    have faM : ∀ u : String, (("author=" ++ u) == "-M") = false :=
      fun u => beq_false_of_head rfl rfl (by decide)
    cases hT : pyTruthy title <;> cases hA : pyTruthy author <;>
      simp [cmdFallback, adjPair, hT, hA, fo, fpe, fat, faa, ftM, faM]

/-! ## C3: failure asymmetry of the three reference kinds -/

/-- Counterexample for C3.  A failed external-URL fetch rewrites each
image-embed occurrence left to right without rescanning the replaced text,
so a `!` immediately before a replaced occurrence can form a new image
reference: the rewritten document still contains image-embed syntax
referencing — and an occurrence of — the failed URL. -/
theorem failed_url_rewrite_can_recreate_image_ref :
    (processAssets
        (some (.ok (.obj [("urls", .arr [.str "https://x/img.png"])])))
        ⟨fun _ => none, fun _ => none, fun _ => none⟩
        "!![b](https://x/img.png)(https://x/img.png)").map = []
    ∧ (processAssets
        (some (.ok (.obj [("urls", .arr [.str "https://x/img.png"])])))
        ⟨fun _ => none, fun _ => none, fun _ => none⟩
        "!![b](https://x/img.png)(https://x/img.png)").content
      = "![Image unavailable: b](https://x/img.png)"
    ∧ hasImageRef "![Image unavailable: b](https://x/img.png)" "https://x/img.png" = true
    ∧ substrOf "https://x/img.png" "![Image unavailable: b](https://x/img.png)" = true :=
  ⟨rfl, rfl, by decide, by decide⟩

/-- C3 as amended.  A failed `InternalAsset` or `Attachment` fetch is
silently dropped (no map entry, no text mutation); a failed `ExternalUrl`
fetch adds no map entry and rewrites the document with the alt-preserving
single-pass substitution — which removes every simple image-embed
occurrence (as in the spec scenario) but does not in general guarantee the
output is free of image references to the URL. -/
theorem asset_failure_asymmetry (o : Oracles) :
    (∀ (st : AState) (aid : Json),
      o.fetchAsset aid = none → stepAsset o st aid = st)
    ∧ (∀ (st : AState) (attUrls : Json) (i : Nat) (aid : Json),
      o.fetchAttachment aid = none →
        stepAttachment o attUrls st (i, aid) = .ok st)
    ∧ (∀ (st : AState) (u : String), o.fetchUrl u = none →
        stepUrl o st (.str u) = .ok ⟨st.map, subImage st.content u⟩)
    ∧ (∀ (st : AState) (u : String) (p : String), o.fetchUrl u = some p →
        stepUrl o st (.str u) = .ok ⟨mapInsert st.map (.str u) p, st.content⟩)
    ∧ subImage "See ![alt](https://x/img.png) here" "https://x/img.png"
      = "See [Image unavailable: alt] here"
    ∧ substrOf "https://x/img.png"
        (subImage "See ![alt](https://x/img.png) here" "https://x/img.png") = false := by
  refine ⟨?_, ?_, ?_, ?_, by decide, by decide⟩
  · intro st aid h
    simp [stepAsset, h]
  · intro st attUrls i aid h
    simp [stepAttachment, h]
  · intro st u h
    simp [stepUrl, h]
  · intro st u p h
    simp [stepUrl, h]

/-- Witness for C3's amended statement at an all-failing oracle. -/
theorem asset_failure_asymmetry_witness :
    let o : Oracles := ⟨fun _ => none, fun _ => none,
      fun u => if u = "https://ok/a.png" then some "/w/assets/url_aaaaaaaa.png" else none⟩
    o.fetchAsset (.num 3) = none
    ∧ stepAsset o ⟨[], "doc"⟩ (.num 3) = ⟨[], "doc"⟩
    ∧ o.fetchAttachment (.num 4) = none
    ∧ stepAttachment o (.arr [.str "u"]) ⟨[], "doc"⟩ (0, .num 4) = .ok ⟨[], "doc"⟩
    ∧ o.fetchUrl "https://x/img.png" = none
    ∧ stepUrl o ⟨[], "![a](https://x/img.png)"⟩ (.str "https://x/img.png")
      = .ok ⟨[], subImage "![a](https://x/img.png)" "https://x/img.png"⟩
    ∧ o.fetchUrl "https://ok/a.png" = some "/w/assets/url_aaaaaaaa.png"
    ∧ stepUrl o ⟨[], "d"⟩ (.str "https://ok/a.png")
      = .ok ⟨mapInsert [] (.str "https://ok/a.png") "/w/assets/url_aaaaaaaa.png", "d"⟩ := by
  refine ⟨rfl, ?_, rfl, ?_, rfl, ?_, rfl, ?_⟩
  · exact (asset_failure_asymmetry _).1 _ _ rfl
  · exact (asset_failure_asymmetry _).2.1 _ _ _ _ rfl
  · exact (asset_failure_asymmetry _).2.2.1 _ _ rfl
  · exact (asset_failure_asymmetry _).2.2.2.1 _ _ _ rfl

/-! ## C7: degradation on bundle exceptions -/

/-- Counterexample for C7.  An exception raised while processing the bundle
structure (here: iterating a non-iterable `urls` value) does not degrade to
an empty plan: the internal-asset substitution accumulated before the
exception is kept and applied, mutating the document. -/
theorem partial_asset_map_after_exception :
    (processAssets
        (some (.ok (.obj [("assets", .arr [.num 1]), ("urls", .num 0)])))
        ⟨fun _ => some "/w/assets/asset_1.jpg", fun _ => none, fun _ => none⟩
        "x asset://1 y").map
      = [(.str "asset://1", "/w/assets/asset_1.jpg")]
    ∧ rewriteDocument
        (some (.ok (.obj [("assets", .arr [.num 1]), ("urls", .num 0)])))
        ⟨fun _ => some "/w/assets/asset_1.jpg", fun _ => none, fun _ => none⟩
        "x asset://1 y"
      = .ok "x /w/assets/asset_1.jpg y"
    ∧ "x /w/assets/asset_1.jpg y" ≠ "x asset://1 y" :=
  ⟨rfl, rfl, by decide⟩

/-- C7 as amended.  A falsy or unparsable bundle degrades to an empty plan
and leaves the document unchanged, and the conversion proceeds; an
exception raised later, while processing the bundle structure, stops
resolution but keeps (and applies) the substitutions accumulated up to the
raise. -/
theorem bundle_parse_failure_empty_plan :
    (∀ (o : Oracles) (c : String), processAssets none o c = ⟨[], c⟩)
    ∧ (∀ (o : Oracles) (c : String),
        processAssets (some (.error ())) o c = ⟨[], c⟩)
    ∧ (∀ (o : Oracles) (c : String),
        rewriteDocument (some (.error ())) o c = .ok c)
    ∧ (∀ (o : Oracles) (c : String) (j : Json) (st : AState),
        processBundle j o ⟨[], c⟩ = .error st →
          processAssets (some (.ok j)) o c = st) := by
  refine ⟨fun o c => rfl, fun o c => rfl, fun o c => rfl, fun o c j st h => ?_⟩
  simp [processAssets, h]

/-- Witness for C7's amended statement: a bundle whose `attachments` value
is not iterable raises after the assets loop, keeping the accumulated
entry. -/
theorem bundle_parse_failure_empty_plan_witness :
    processBundle (.obj [("assets", .arr [.num 2]), ("attachments", .num 1)])
        ⟨fun _ => some "/w/assets/asset_2.jpg", fun _ => none, fun _ => none⟩
        ⟨[], "doc"⟩
      = .error ⟨[(.str "asset://2", "/w/assets/asset_2.jpg")], "doc"⟩
    ∧ processAssets
        (some (.ok (.obj [("assets", .arr [.num 2]), ("attachments", .num 1)])))
        ⟨fun _ => some "/w/assets/asset_2.jpg", fun _ => none, fun _ => none⟩
        "doc"
      = ⟨[(.str "asset://2", "/w/assets/asset_2.jpg")], "doc"⟩ :=
  ⟨rfl, bundle_parse_failure_empty_plan.2.2.2 _ _ _ _ rfl⟩

/-! ## C8: substitution ordering -/

/-- Counterexample for C8.  Substitutions are applied in insertion order,
not longest-token-first: with the shorter URL inserted before the longer
one that contains it, rewriting corrupts the longer token's occurrence and
the longer token's local path never appears in the output. -/
theorem substitution_order_corrupts_longer_token :
    (processAssets
        (some (.ok (.obj [("urls",
          .arr [.str "https://x/a", .str "https://x/a/b"])])))
        ⟨fun _ => none, fun _ => none,
          fun u => if u == "https://x/a" then some "/w/LA.jpg"
            else some "/w/LB.jpg"⟩
        "![i](https://x/a/b)").map
      = [(.str "https://x/a", "/w/LA.jpg"),
         (.str "https://x/a/b", "/w/LB.jpg")]
    ∧ rewriteDocument
        (some (.ok (.obj [("urls",
          .arr [.str "https://x/a", .str "https://x/a/b"])])))
        ⟨fun _ => none, fun _ => none,
          fun u => if u == "https://x/a" then some "/w/LA.jpg"
            else some "/w/LB.jpg"⟩
        "![i](https://x/a/b)"
      = .ok "![i](/w/LA.jpg/b)"
    ∧ substrOf "/w/LB.jpg" "![i](/w/LA.jpg/b)" = false :=
  ⟨rfl, rfl, by decide⟩

/-- C8 as amended.  The rewriter applies one `str.replace` pass per map
entry, in insertion order; every all-string-key map rewrites successfully,
and a longer token is protected from corruption by a shorter contained
token only when the longer one comes first in the map. -/
theorem substitution_applied_in_insertion_order :
    (∀ (rest : List (Json × String)) (s v c : String),
      applyMapE ((.str s, v) :: rest) c = applyMapE rest (pyReplace c s v))
    ∧ (∀ (m : List (Json × String)) (c : String),
      (∀ k ∈ m, ∃ s : String, k.1 = .str s) →
        ∃ out : String, applyMapE m c = .ok out)
    ∧ applyMapE [(.str "https://x/a/b", "/w/LB.jpg"),
        (.str "https://x/a", "/w/LA.jpg")] "![i](https://x/a/b)"
      = .ok "![i](/w/LB.jpg)" := by
  refine ⟨fun rest s v c => rfl, ?_, rfl⟩
  intro m
  induction m with
  | nil => exact fun c _ => ⟨c, rfl⟩
  | cons p rest ih =>
    intro c h
    obtain ⟨s, hs⟩ := h p (List.mem_cons_self p rest)
    obtain ⟨k, v⟩ := p
    simp only at hs
    subst hs
    exact ih (pyReplace c s v) (fun q hq => h q (List.mem_cons_of_mem _ hq))

/-- Witness for C8's amended statement: an all-string-key map rewrites
successfully. -/
theorem substitution_applied_in_insertion_order_witness :
    (∀ k ∈ [((Json.str "u"), "L")], ∃ s : String, k.1 = .str s)
    ∧ ∃ out : String, applyMapE [((Json.str "u"), "L")] "a u b" = .ok out :=
  ⟨fun k hk => ⟨"u", by simp at hk; simp [hk]⟩,
   substitution_applied_in_insertion_order.2.1 _ "a u b"
     (fun k hk => ⟨"u", by simp at hk; simp [hk]⟩)⟩

/-! ## C10: extraction-service status classes -/

/-- C10 (confirmed).  In the extraction service a failed download of the
requested URL yields 400; an uploaded file over 50 MiB yields 413, and an
`HTTPException` raised in the conversion body is re-raised with its status
unchanged rather than wrapped into a 500; any other exception during
conversion yields 500. -/
theorem extraction_status_classes :
    (∀ (m : String) (conv : Extraction.ConvertOracle),
      Extraction.convert_url (.error m) conv
        = .httpError 400 ("Failed to download URL: " ++ m))
    ∧ (∀ (n : Nat) (conv : Extraction.ConvertOracle), n > 50 * 1024 * 1024 →
      Extraction.convert_file n conv
        = .httpError 413 "File too large (max 50MB)")
    ∧ (∀ (n s : Nat) (d : String), n ≤ 50 * 1024 * 1024 →
      Extraction.convert_file n (.error (.http s d)) = .httpError s d)
    ∧ (∀ (r : HttpResp) (m : String),
      Extraction.convert_url (.ok r) (.error (.generic m))
        = .httpError 500 ("Conversion failed: " ++ m))
    ∧ (∀ (n : Nat) (m : String), n ≤ 50 * 1024 * 1024 →
      Extraction.convert_file n (.error (.generic m))
        = .httpError 500 ("File conversion failed: " ++ m)) := by
  refine ⟨fun m conv => rfl, fun n conv h => ?_, fun n s d h => ?_,
    fun r m => rfl, fun n m h => ?_⟩
  · simp [Extraction.convert_file, h]
  · simp [Extraction.convert_file, Nat.not_lt.mpr h]
  · simp [Extraction.convert_file, Nat.not_lt.mpr h]

/-- Witness for C10 at concrete sizes and messages. -/
theorem extraction_status_classes_witness :
    Extraction.convert_url (.error "boom") (.ok "md")
      = .httpError 400 "Failed to download URL: boom"
    ∧ (52428801 > 50 * 1024 * 1024
      ∧ Extraction.convert_file 52428801 (.ok "md")
        = .httpError 413 "File too large (max 50MB)")
    ∧ Extraction.convert_file 10 (.error (.http 413 "File too large (max 50MB)"))
      = .httpError 413 "File too large (max 50MB)"
    ∧ Extraction.convert_url (.ok ⟨3, []⟩) (.error (.generic "bad"))
      = .httpError 500 "Conversion failed: bad"
    ∧ Extraction.convert_file 10 (.error (.generic "bad"))
      = .httpError 500 "File conversion failed: bad" :=
  ⟨extraction_status_classes.1 "boom" (.ok "md"),
   ⟨by decide, extraction_status_classes.2.1 52428801 (.ok "md") (by decide)⟩,
   extraction_status_classes.2.2.1 10 413 "File too large (max 50MB)" (by decide),
   extraction_status_classes.2.2.2.1 ⟨3, []⟩ "bad",
   extraction_status_classes.2.2.2.2 10 "bad" (by decide)⟩

end Gateway
